import Mathlib

/-!
Shallow embedding of
`sdk/storage/azure-storage-file-datalake/azure/storage/filedatalake/_upload_helper.py`.

The Python function `upload_datalake_file` drives one upload session:
an optional `create` call, a chunk-upload phase (one of two strategies),
and a final `flush_data` call.  We model the remote service as an
environment of pre-chosen outcomes and record the sequence of remote
calls the function issues, together with its result (`Except` models the
Python exception flow: only `HttpResponseError` is caught by the
function's `try`/`except`).
-/

namespace DatalakeUpload

/-- The four conditional-request predicates of
`ModifiedAccessConditions` (a mutable record in the source; we thread it
explicitly). -/
structure ModifiedAccessConditions where
  if_modified_since : Option String
  if_unmodified_since : Option String
  if_none_match : Option String
  if_match : Option String
deriving Repr, DecidableEq

/-- Python truthiness of an optional-string-valued attribute: `None` and
the empty string are falsy. -/
def truthy : Option String → Bool
  | none => false
  | some s => !s.isEmpty

/-- `_any_conditions` from the source: `any` of the four predicate
attributes, in the source's order. -/
def any_conditions (modified_access_conditions : ModifiedAccessConditions) : Bool :=
  truthy modified_access_conditions.if_modified_since ||
  truthy modified_access_conditions.if_unmodified_since ||
  truthy modified_access_conditions.if_none_match ||
  truthy modified_access_conditions.if_match

/-- The capabilities of the Python stream object that the strategy
choice inspects: an optional `seekable` attribute (absent on objects
without that method, otherwise its boolean return value), and the
presence of `seek` and `tell` attributes. -/
structure SourceStream where
  seekable_attr : Option Bool
  has_seek : Bool
  has_tell : Bool
deriving Repr, DecidableEq

/-- The two fields of `StorageConfiguration` that
`upload_datalake_file` reads. -/
structure StorageConfiguration where
  use_byte_buffer : Bool
  min_large_chunk_upload_threshold : Nat
deriving Repr, DecidableEq

/-- A service-side error of the `HttpResponseError` class. -/
structure HttpResponseError where
  message : String
deriving Repr, DecidableEq

/-- The response of `client.create` as consumed by the source: only the
`etag` header is read. -/
structure CreateResponse where
  etag : String
deriving Repr, DecidableEq

/-- Response-header metadata, the return value of the upload
(`Dict[str, Any]` holding response headers; `{}` is `[]`). -/
abbrev Metadata := List (String × String)

/-- Outcome of the chunk-upload phase (`upload_data_chunks` /
`upload_substream_blocks`): success, an `HttpResponseError`, or any
other exception (which the `except HttpResponseError` clause does not
catch). -/
inductive ChunkPhaseError where
  | http (e : HttpResponseError)
  | other (msg : String)
deriving Repr, DecidableEq

/-- The errors with which the modelled function can terminate.
`valueError` and `attributeError` escape the `try` block uncaught;
`storage` is what `process_storage_error` raises for a caught
`HttpResponseError`; `uncaught` is a non-HTTP exception from the chunk
phase propagating unchanged. -/
inductive UploadError where
  | valueError (msg : String)
  | attributeError (msg : String)
  | storage (e : HttpResponseError)
  | uncaught (msg : String)
deriving Repr, DecidableEq

/-- Modelled from the spec: `process_storage_error` (defined in
`_deserialize.py`, which is not part of the sources here) maps a caught
`HttpResponseError` into the storage error taxonomy and raises it; per
the spec, errors are "surfaced verbatim to the caller" and "no error is
silently swallowed". -/
def process_storage_error (e : HttpResponseError) : UploadError :=
  UploadError.storage e

/-- One remote call issued by the session, with the arguments the claims
inspect: the conditional state passed to `create`, the strategy flag and
sizes of the chunk phase, and the position / conditional state / close
flag of `flush_data`. -/
inductive RemoteCall where
  | create (modified_access_conditions : Option ModifiedAccessConditions)
  | uploadChunks (sequential : Bool) (total_size : Option Nat) (chunk_size : Nat)
  | flushData (position : Option Nat)
      (modified_access_conditions : Option ModifiedAccessConditions) (close : Bool)
deriving Repr, DecidableEq

def is_create : RemoteCall → Bool
  | RemoteCall.create _ => true
  | _ => false

def is_chunk_upload : RemoteCall → Bool
  | RemoteCall.uploadChunks _ _ _ => true
  | _ => false

def is_flush : RemoteCall → Bool
  | RemoteCall.flushData _ _ _ => true
  | _ => false

/-- The remote service's pre-chosen responses for the (at most one)
create call, chunk phase and flush call of one session. -/
structure Env where
  createResult : Except HttpResponseError CreateResponse
  chunkOutcome : Except ChunkPhaseError Unit
  flushResult : Except HttpResponseError Metadata

/-- The arguments of `upload_datalake_file` (positional parameters plus
the keyword arguments the function pops from `kwargs`).  `properties`,
`umask` and `permissions` are modelled by their truthiness-relevant
value; `length` is optional as in the source. -/
structure UploadArgs where
  stream : SourceStream
  validate_content : Bool
  max_concurrency : Nat
  file_settings : StorageConfiguration
  length : Option Nat
  overwrite : Bool
  properties : Option String
  umask : Option String
  permissions : Option String
  path_http_headers : Option String
  modified_access_conditions : Option ModifiedAccessConditions
  chunk_size : Nat

/-- The strategy decision of the source, verbatim:
`use_byte_buffer or validate_content or chunk_size < threshold or
(hasattr(stream, seekable) and not stream.seekable()) or
not hasattr(stream, seek) or not hasattr(stream, tell)`. -/
def use_original_upload_path (file_settings : StorageConfiguration)
    (validate_content : Bool) (chunk_size : Nat) (stream : SourceStream) : Bool :=
  file_settings.use_byte_buffer || validate_content ||
    decide (chunk_size < file_settings.min_large_chunk_upload_threshold) ||
    (match stream.seekable_attr with
     | some b => !b
     | none => false) ||
    !stream.has_seek || !stream.has_tell

/-- Message of the `ValueError` raised on the `overwrite=false` path. -/
def value_err_msg : String :=
  "metadata, umask and permissions can be set only when overwrite is enabled"

/-- Message of the `AttributeError` raised when `_any_conditions` reads
`if_modified_since` off `None`. -/
def attr_err_any_conditions : String :=
  "NoneType object has no attribute if_modified_since"

/-- Message of the `AttributeError` raised when the post-create rewrite
assigns `if_match` on `None`. -/
def attr_err_if_match : String :=
  "NoneType object has no attribute if_match"

/-- The tail of `upload_datalake_file` after the create/precondition
block: strategy selection, the chunk phase (either
`upload_data_chunks` or `upload_substream_blocks`), and the final
`client.flush_data(position=length, ..., close=True)` call, inside the
same `try`/`except HttpResponseError` as the rest. -/
def run_chunks_and_flush (args : UploadArgs) (env : Env)
    (callsSoFar : List RemoteCall) (mac : Option ModifiedAccessConditions) :
    List RemoteCall × Except UploadError Metadata :=
  let sequential := use_original_upload_path args.file_settings
    args.validate_content args.chunk_size args.stream
  let chunkCall := RemoteCall.uploadChunks sequential args.length args.chunk_size
  match env.chunkOutcome with
  | Except.error (ChunkPhaseError.http e) =>
      (callsSoFar ++ [chunkCall], Except.error (process_storage_error e))
  | Except.error (ChunkPhaseError.other msg) =>
      (callsSoFar ++ [chunkCall], Except.error (UploadError.uncaught msg))
  | Except.ok _ =>
      let flushCall := RemoteCall.flushData args.length mac true
      match env.flushResult with
      | Except.error e =>
          (callsSoFar ++ [chunkCall, flushCall], Except.error (process_storage_error e))
      | Except.ok m =>
          (callsSoFar ++ [chunkCall, flushCall], Except.ok m)

/-- `upload_datalake_file` from the source, as a function from its
arguments and the service's responses to the list of remote calls issued
and the returned value or escaped exception. -/
def upload_datalake_file (args : UploadArgs) (env : Env) :
    List RemoteCall × Except UploadError Metadata :=
  if args.length = some 0 then ([], Except.ok [])
  else if args.overwrite = false then
    match args.modified_access_conditions with
    | none =>
        ([], Except.error (UploadError.attributeError attr_err_any_conditions))
    | some mac0 =>
        let mac := if any_conditions mac0 then mac0
          else { mac0 with if_none_match := some "*" }
        if truthy args.properties || truthy args.umask || truthy args.permissions then
          ([], Except.error (UploadError.valueError value_err_msg))
        else
          run_chunks_and_flush args env [] (some mac)
  else
    let createCall := RemoteCall.create args.modified_access_conditions
    match env.createResult with
    | Except.error e => ([createCall], Except.error (process_storage_error e))
    | Except.ok resp =>
        match args.modified_access_conditions with
        | none =>
            ([createCall], Except.error (UploadError.attributeError attr_err_if_match))
        | some _ =>
            run_chunks_and_flush args env [createCall]
              (some { if_match := some resp.etag, if_none_match := none,
                      if_modified_since := none, if_unmodified_since := none })

/-- The ConditionalState the session holds when it reaches the flush
call: the create-pinned state on the overwrite path, the (possibly
`if-none-match *`-injected) caller state otherwise. -/
def session_conditional_state (args : UploadArgs) (env : Env) :
    Option ModifiedAccessConditions :=
  if args.overwrite then
    match env.createResult, args.modified_access_conditions with
    | Except.ok resp, some _ =>
        some { if_match := some resp.etag, if_none_match := none,
               if_modified_since := none, if_unmodified_since := none }
    | _, _ => none
  else
    match args.modified_access_conditions with
    | none => none
    | some mac0 =>
        some (if any_conditions mac0 then mac0
          else { mac0 with if_none_match := some "*" })

/-! ## Shared concrete inputs for witnesses and counterexamples -/

/-- A seekable stream exposing `seek` and `tell` (a regular file object). -/
def exStream : SourceStream :=
  { seekable_attr := some true, has_seek := true, has_tell := true }

def exSettings : StorageConfiguration :=
  { use_byte_buffer := false, min_large_chunk_upload_threshold := 64 }

/-- An environment where every remote call succeeds. -/
def exEnvOk : Env :=
  { createResult := Except.ok { etag := "0x1A" },
    chunkOutcome := Except.ok (),
    flushResult := Except.ok [("etag", "0x2B")] }

/-- A ConditionalState with no predicate set. -/
def emptyMAC : ModifiedAccessConditions :=
  { if_modified_since := none, if_unmodified_since := none,
    if_none_match := none, if_match := none }

def baseArgs : UploadArgs :=
  { stream := exStream, validate_content := false, max_concurrency := 2,
    file_settings := exSettings, length := some 200, overwrite := false,
    properties := none, umask := none, permissions := none,
    path_http_headers := none, modified_access_conditions := some emptyMAC,
    chunk_size := 100 }

/-! ## Claim theorems -/

/-- Claim C6: for every session whose declared length equals 0, the
upload returns empty metadata immediately and issues no create, chunk or
flush call, regardless of all other options and of the environment. -/
theorem zero_length_short_circuit (args : UploadArgs) (env : Env)
    (h : args.length = some 0) :
    upload_datalake_file args env = ([], Except.ok []) := by
  unfold upload_datalake_file
  simp [h]

def c6Args : UploadArgs := { baseArgs with length := some 0, overwrite := true }

theorem zero_length_short_circuit_witness :
    c6Args.length = some 0 ∧
    upload_datalake_file c6Args exEnvOk = ([], Except.ok []) :=
  ⟨rfl, zero_length_short_circuit c6Args exEnvOk rfl⟩

/-- Claim C10: the zero-length short-circuit takes precedence over
configuration validation: a length-0 session returns empty metadata
without raising even when overwrite=false and properties are set (a
combination rejected when the length is non-zero) and even when no
ConditionalState object is supplied. -/
theorem zero_length_precedes_validation (args : UploadArgs) (env : Env)
    (hlen : args.length = some 0) (hov : args.overwrite = false)
    (hprops : truthy args.properties = true)
    (hmac : args.modified_access_conditions = none) :
    upload_datalake_file args env = ([], Except.ok []) := by
  unfold upload_datalake_file
  simp [hlen]

def c10Args : UploadArgs :=
  { baseArgs with
    length := some 0,
    overwrite := false,
    properties := some "meta",
    modified_access_conditions := none }

theorem zero_length_precedes_validation_witness :
    c10Args.length = some 0 ∧ c10Args.overwrite = false ∧
    truthy c10Args.properties = true ∧
    c10Args.modified_access_conditions = none ∧
    upload_datalake_file c10Args exEnvOk = ([], Except.ok []) :=
  ⟨rfl, rfl, by decide, rfl,
    zero_length_precedes_validation c10Args exEnvOk rfl rfl (by decide) rfl⟩

/-- Whether the stream counts as seekable for the strategy choice: not
seekable exactly when it has a `seekable` attribute returning false. -/
def stream_is_seekable (stream : SourceStream) : Bool :=
  match stream.seekable_attr with
  | some b => b
  | none => true

/-- Whether the stream supports random-access reading: it has both
`seek` and `tell`. -/
def stream_supports_random_access (stream : SourceStream) : Bool :=
  stream.has_seek && stream.has_tell

/-- Claim C3: strategy selection is a pure function of exactly
(useByteBufferChunking, validateContent, chunkSize,
minLargeChunkThreshold, seekable, supportsRandomAccess): the sequential
path is chosen iff useByteBufferChunking OR validateContent OR
chunkSize < minLargeChunkThreshold OR not seekable OR no random-access
support; being a function of its arguments, the choice depends on
nothing else. -/
theorem strategy_selection_formula (file_settings : StorageConfiguration)
    (validate_content : Bool) (chunk_size : Nat) (stream : SourceStream) :
    use_original_upload_path file_settings validate_content chunk_size stream =
      (file_settings.use_byte_buffer || validate_content ||
        decide (chunk_size < file_settings.min_large_chunk_upload_threshold) ||
        !stream_is_seekable stream || !stream_supports_random_access stream) := by
  cases h : stream.seekable_attr <;>
    simp [use_original_upload_path, stream_is_seekable,
      stream_supports_random_access, h, Bool.not_and, Bool.or_assoc]

/-- Claim C1: for every overwrite=true session (with a ConditionalState
object supplied) whose create succeeds and whose chunk phase completes,
the session state after create has if-match equal to the ETag returned
by create and if-none-match, if-modified-since and if-unmodified-since
all cleared to none, and exactly this rewritten state is the one carried
by the final flush call. -/
theorem overwrite_pins_if_match (args : UploadArgs) (env : Env)
    (s : ModifiedAccessConditions) (resp : CreateResponse)
    (hlen : args.length ≠ some 0)
    (hov : args.overwrite = true)
    (hmac : args.modified_access_conditions = some s)
    (hcreate : env.createResult = Except.ok resp)
    (hchunk : env.chunkOutcome = Except.ok ()) :
    (upload_datalake_file args env).1 =
      [RemoteCall.create (some s),
       RemoteCall.uploadChunks (use_original_upload_path args.file_settings
         args.validate_content args.chunk_size args.stream) args.length args.chunk_size,
       RemoteCall.flushData args.length
         (some { if_match := some resp.etag, if_none_match := none,
                 if_modified_since := none, if_unmodified_since := none }) true] := by
  unfold upload_datalake_file run_chunks_and_flush
  cases hfl : env.flushResult <;>
    simp [hlen, hov, hmac, hcreate, hchunk, hfl]

def c1Args : UploadArgs :=
  { baseArgs with
    overwrite := true,
    modified_access_conditions :=
      some { emptyMAC with if_unmodified_since := some "date1" } }

theorem overwrite_pins_if_match_witness :
    (upload_datalake_file c1Args exEnvOk).1 =
      [RemoteCall.create
         (some { if_modified_since := none, if_unmodified_since := some "date1",
                 if_none_match := none, if_match := none }),
       RemoteCall.uploadChunks false (some 200) 100,
       RemoteCall.flushData (some 200)
         (some { if_match := some "0x1A", if_none_match := none,
                 if_modified_since := none, if_unmodified_since := none }) true] :=
  overwrite_pins_if_match c1Args exEnvOk
    { emptyMAC with if_unmodified_since := some "date1" }
    { etag := "0x1A" } (by decide) rfl rfl rfl rfl

/-- Claim C9: for every session with declared length different from 0,
passing no ConditionalState object causes an unhandled AttributeError
that escapes the function instead of a taxonomy error: before any
remote call on the overwrite=false path (whose `_any_conditions` read
fails), and right after a successful create on the overwrite=true path
(whose if-match assignment fails). -/
theorem none_conditions_attribute_error (args : UploadArgs) (env : Env)
    (hlen : args.length ≠ some 0)
    (hmac : args.modified_access_conditions = none) :
    (args.overwrite = false →
      upload_datalake_file args env =
        ([], Except.error (UploadError.attributeError attr_err_any_conditions))) ∧
    (args.overwrite = true → ∀ resp, env.createResult = Except.ok resp →
      upload_datalake_file args env =
        ([RemoteCall.create none],
         Except.error (UploadError.attributeError attr_err_if_match))) := by
  unfold upload_datalake_file
  constructor
  · intro hov
    simp [hlen, hov, hmac]
  · intro hov resp hcr
    simp [hlen, hov, hmac, hcr]

def c9Args : UploadArgs :=
  { baseArgs with
    length := some 50,
    modified_access_conditions := none }

theorem none_conditions_attribute_error_witness :
    upload_datalake_file c9Args exEnvOk =
      ([], Except.error (UploadError.attributeError attr_err_any_conditions)) :=
  (none_conditions_attribute_error c9Args exEnvOk (by decide) rfl).1 rfl

def c8Args : UploadArgs :=
  { baseArgs with
    overwrite := true,
    modified_access_conditions :=
      some { emptyMAC with if_none_match := some "*" } }

/-- Claim C8 counterexample: overwrite=true with a caller-supplied
if-none-match "*" — the create call issued carries that
existence-guarding precondition, so create is not "always unconditional
with respect to existence, whatever preconditions the caller
supplied". -/
theorem create_unconditional_cex :
    (upload_datalake_file c8Args exEnvOk).1.head? =
      some (RemoteCall.create
        (some { if_modified_since := none, if_unmodified_since := none,
                if_none_match := some "*", if_match := none })) := rfl

/-- Claim C8 (amended): for every session with overwrite=true and
non-zero declared length, the first remote call is a create carrying
exactly the caller-supplied ConditionalState, unchanged: the engine
injects no existence-guarding precondition of its own on this path, but
it also strips none the caller supplied. -/
theorem create_passes_caller_state (args : UploadArgs) (env : Env)
    (hov : args.overwrite = true) (hlen : args.length ≠ some 0) :
    (upload_datalake_file args env).1.head? =
      some (RemoteCall.create args.modified_access_conditions) := by
  unfold upload_datalake_file run_chunks_and_flush
  cases hcr : env.createResult with
  | error e => simp [hlen, hov, hcr]
  | ok resp =>
    cases hmac : args.modified_access_conditions with
    | none => simp [hlen, hov, hcr, hmac]
    | some s =>
      cases hch : env.chunkOutcome with
      | error ce => cases ce <;> simp [hlen, hov, hcr, hmac, hch]
      | ok u => cases hfl : env.flushResult <;> simp [hlen, hov, hcr, hmac, hch, hfl]

def c8wArgs : UploadArgs :=
  { baseArgs with
    overwrite := true,
    modified_access_conditions :=
      some { emptyMAC with if_match := some "0x77" } }

theorem create_passes_caller_state_witness :
    (upload_datalake_file c8wArgs exEnvOk).1.head? =
      some (RemoteCall.create c8wArgs.modified_access_conditions) :=
  create_passes_caller_state c8wArgs exEnvOk rfl (by decide)

def c4Args : UploadArgs := baseArgs

/-- Claim C4 counterexample: overwrite=false with no caller-supplied
precondition — the session issues no create call at all (the injected
if-none-match "*" travels on the flush call instead), so the claim that
"the create call carries if-none-match: *" fails: there is no create
call. -/
theorem injected_star_on_create_cex :
    ((upload_datalake_file c4Args exEnvOk).1.all (fun c => !(is_create c))) = true ∧
    (upload_datalake_file c4Args exEnvOk).1 =
      [RemoteCall.uploadChunks false (some 200) 100,
       RemoteCall.flushData (some 200)
         (some { if_modified_since := none, if_unmodified_since := none,
                 if_none_match := some "*", if_match := none }) true] :=
  ⟨rfl, rfl⟩

/-- Claim C4 (amended): for every overwrite=false session with a
ConditionalState supplied but no predicate set, non-zero length, no
properties/umask/permissions and a successful chunk phase, the engine
injects if-none-match "*" and it is the flush call that carries it; no
create call is issued on this path. -/
theorem injected_star_on_flush (args : UploadArgs) (env : Env)
    (s : ModifiedAccessConditions)
    (hov : args.overwrite = false)
    (hmac : args.modified_access_conditions = some s)
    (hany : any_conditions s = false)
    (hlen : args.length ≠ some 0)
    (hprops : (truthy args.properties || truthy args.umask ||
      truthy args.permissions) = false)
    (hch : env.chunkOutcome = Except.ok ()) :
    (upload_datalake_file args env).1 =
      [RemoteCall.uploadChunks (use_original_upload_path args.file_settings
         args.validate_content args.chunk_size args.stream) args.length args.chunk_size,
       RemoteCall.flushData args.length
         (some { s with if_none_match := some "*" }) true] ∧
    ∀ c ∈ (upload_datalake_file args env).1, is_create c = false := by
  unfold upload_datalake_file run_chunks_and_flush
  cases hfl : env.flushResult <;>
    simp [hov, hmac, hany, hlen, hprops, hch, hfl, is_create]

def c4wArgs : UploadArgs :=
  { baseArgs with
    length := some 120 }

theorem injected_star_on_flush_witness :
    (upload_datalake_file c4wArgs exEnvOk).1 =
      [RemoteCall.uploadChunks false (some 120) 100,
       RemoteCall.flushData (some 120)
         (some { if_modified_since := none, if_unmodified_since := none,
                 if_none_match := some "*", if_match := none }) true] ∧
    ∀ c ∈ (upload_datalake_file c4wArgs exEnvOk).1, is_create c = false :=
  injected_star_on_flush c4wArgs exEnvOk emptyMAC rfl rfl rfl (by decide) rfl rfl

def c5Args : UploadArgs :=
  { baseArgs with
    length := some 10,
    properties := some "appMetadata",
    modified_access_conditions :=
      some { emptyMAC with if_match := some "0xAB" } }

/-- Claim C5 counterexample: overwrite=false with a caller-supplied
non-default precondition (if-match) together with properties — the call
IS rejected with the ValueError, contradicting the claim that the
rejection fires only in the no-precondition (auto-injected default)
case and that the call otherwise proceeds. -/
theorem reject_only_default_cex :
    any_conditions
        { if_modified_since := none, if_unmodified_since := none,
          if_none_match := none, if_match := some "0xAB" } = true ∧
    upload_datalake_file c5Args exEnvOk =
      ([], Except.error (UploadError.valueError value_err_msg)) :=
  ⟨rfl, rfl⟩

/-- Claim C5 (amended): for every overwrite=false session with non-zero
length and a ConditionalState supplied, the ValueError rejection for
properties, umask and permissions fires iff any of the three is truthy,
regardless of whether the caller supplied their own preconditions: the
check is not restricted to the auto-injected default case. -/
theorem reject_props_iff (args : UploadArgs) (env : Env)
    (s : ModifiedAccessConditions)
    (hov : args.overwrite = false)
    (hlen : args.length ≠ some 0)
    (hmac : args.modified_access_conditions = some s) :
    ((upload_datalake_file args env).2 =
        Except.error (UploadError.valueError value_err_msg)) ↔
      (truthy args.properties || truthy args.umask ||
        truthy args.permissions) = true := by
  unfold upload_datalake_file run_chunks_and_flush
  cases hp : (truthy args.properties || truthy args.umask || truthy args.permissions)
  · cases hch : env.chunkOutcome with
    | error ce =>
      cases ce <;> simp [hov, hlen, hmac, hp, hch, process_storage_error]
    | ok u =>
      cases hfl : env.flushResult <;>
        simp [hov, hlen, hmac, hp, hch, hfl, process_storage_error]
  · simp [hov, hlen, hmac, hp]

def c5wArgs : UploadArgs :=
  { baseArgs with
    length := some 30,
    umask := some "0027" }

theorem reject_props_iff_witness :
    ((upload_datalake_file c5wArgs exEnvOk).2 =
        Except.error (UploadError.valueError value_err_msg)) ↔
      (truthy c5wArgs.properties || truthy c5wArgs.umask ||
        truthy c5wArgs.permissions) = true :=
  reject_props_iff c5wArgs exEnvOk emptyMAC rfl (by decide) rfl

/-- Claim C2: for every session with non-zero declared length that
reaches the chunk phase and whose chunk phase completes without raising,
flush is issued exactly once, strictly after the chunk phase, with
position equal to the declared total length and close=true, carrying the
session's ConditionalState; and whenever the flush call returns
metadata, that metadata is returned to the caller verbatim. -/
theorem flush_once_at_total_length (args : UploadArgs) (env : Env) (n : Nat)
    (hlen : args.length = some n) (hn : n ≠ 0)
    (hreach : ((upload_datalake_file args env).1.any is_chunk_upload) = true)
    (hch : env.chunkOutcome = Except.ok ()) :
    ∃ pre,
      (upload_datalake_file args env).1 =
        pre ++ [RemoteCall.uploadChunks (use_original_upload_path args.file_settings
            args.validate_content args.chunk_size args.stream) (some n) args.chunk_size,
          RemoteCall.flushData (some n) (session_conditional_state args env) true] ∧
      (∀ c ∈ pre, is_flush c = false) ∧
      (∀ m, env.flushResult = Except.ok m →
        (upload_datalake_file args env).2 = Except.ok m) := by
  have h0 : ¬ args.length = some 0 := by
    rw [hlen]
    simp [hn]
  cases hov : args.overwrite with
  | false =>
    cases hmac : args.modified_access_conditions with
    | none =>
      unfold upload_datalake_file at hreach
      simp [h0, hov, hmac] at hreach
    | some mac0 =>
      cases hp : (truthy args.properties || truthy args.umask ||
          truthy args.permissions) with
      | true =>
        unfold upload_datalake_file at hreach
        simp [h0, hov, hmac, hp] at hreach
      | false =>
        refine ⟨[], ?_, by simp, ?_⟩
        · unfold upload_datalake_file run_chunks_and_flush session_conditional_state
          cases hfl : env.flushResult <;>
            simp [h0, hov, hmac, hp, hch, hfl, hlen, hn]
        · intro m hm
          unfold upload_datalake_file run_chunks_and_flush
          simp [h0, hov, hmac, hp, hch, hm]
  | true =>
    cases hcr : env.createResult with
    | error e =>
      unfold upload_datalake_file at hreach
      simp [h0, hov, hcr, is_chunk_upload] at hreach
    | ok resp =>
      cases hmac : args.modified_access_conditions with
      | none =>
        unfold upload_datalake_file at hreach
        simp [h0, hov, hcr, hmac, is_chunk_upload] at hreach
      | some s =>
        refine ⟨[RemoteCall.create (some s)], ?_, ?_, ?_⟩
        · unfold upload_datalake_file run_chunks_and_flush session_conditional_state
          cases hfl : env.flushResult <;>
            simp [h0, hov, hcr, hmac, hch, hfl, hlen, hn]
        · intro c hc
          simp at hc
          subst hc
          rfl
        · intro m hm
          unfold upload_datalake_file run_chunks_and_flush
          simp [h0, hov, hcr, hmac, hch, hm]

def c2Args : UploadArgs :=
  { baseArgs with
    length := some 250 }

theorem flush_once_at_total_length_witness :
    ∃ pre,
      (upload_datalake_file c2Args exEnvOk).1 =
        pre ++ [RemoteCall.uploadChunks (use_original_upload_path c2Args.file_settings
            c2Args.validate_content c2Args.chunk_size c2Args.stream) (some 250)
            c2Args.chunk_size,
          RemoteCall.flushData (some 250) (session_conditional_state c2Args exEnvOk) true] ∧
      (∀ c ∈ pre, is_flush c = false) ∧
      (∀ m, exEnvOk.flushResult = Except.ok m →
        (upload_datalake_file c2Args exEnvOk).2 = Except.ok m) :=
  flush_once_at_total_length c2Args exEnvOk 250 rfl (by decide) (by decide) rfl

/-- Claim C7: whenever the create call or the chunk phase raises, flush
is never issued and the triggering error is surfaced rather than
swallowed: a failing create (overwrite path) and a chunk-phase
HttpResponseError surface through process_storage_error, and any other
chunk-phase exception propagates unchanged; in none of these cases does
a flush call appear in the trace. -/
theorem no_flush_on_failure (args : UploadArgs) (env : Env)
    (hlen : args.length ≠ some 0) :
    (∀ e, args.overwrite = true → env.createResult = Except.error e →
      (∀ c ∈ (upload_datalake_file args env).1, is_flush c = false) ∧
      (upload_datalake_file args env).2 = Except.error (process_storage_error e)) ∧
    (∀ e, env.chunkOutcome = Except.error (ChunkPhaseError.http e) →
      (∀ c ∈ (upload_datalake_file args env).1, is_flush c = false) ∧
      (((upload_datalake_file args env).1.any is_chunk_upload) = true →
        (upload_datalake_file args env).2 = Except.error (process_storage_error e))) ∧
    (∀ msg, env.chunkOutcome = Except.error (ChunkPhaseError.other msg) →
      (∀ c ∈ (upload_datalake_file args env).1, is_flush c = false) ∧
      (((upload_datalake_file args env).1.any is_chunk_upload) = true →
        (upload_datalake_file args env).2 = Except.error (UploadError.uncaught msg))) := by
  refine ⟨?_, ?_, ?_⟩
  · intro e hov hcr
    unfold upload_datalake_file
    constructor
    · simp [hlen, hov, hcr, is_flush]
    · simp [hlen, hov, hcr]
  · intro e hch
    cases hov : args.overwrite with
    | false =>
      cases hmac : args.modified_access_conditions with
      | none =>
        unfold upload_datalake_file
        simp [hlen, hov, hmac]
      | some mac0 =>
        cases hp : (truthy args.properties || truthy args.umask ||
            truthy args.permissions) with
        | true =>
          unfold upload_datalake_file
          simp [hlen, hov, hmac, hp]
        | false =>
          unfold upload_datalake_file run_chunks_and_flush
          simp [hlen, hov, hmac, hp, hch, is_flush, is_chunk_upload]
    | true =>
      cases hcr : env.createResult with
      | error e2 =>
        unfold upload_datalake_file
        simp [hlen, hov, hcr, is_flush, is_chunk_upload]
      | ok resp =>
        cases hmac : args.modified_access_conditions with
        | none =>
          unfold upload_datalake_file
          simp [hlen, hov, hcr, hmac, is_flush, is_chunk_upload]
        | some s =>
          unfold upload_datalake_file run_chunks_and_flush
          simp [hlen, hov, hcr, hmac, hch, is_flush, is_chunk_upload]
  · intro msg hch
    cases hov : args.overwrite with
    | false =>
      cases hmac : args.modified_access_conditions with
      | none =>
        unfold upload_datalake_file
        simp [hlen, hov, hmac]
      | some mac0 =>
        cases hp : (truthy args.properties || truthy args.umask ||
            truthy args.permissions) with
        | true =>
          unfold upload_datalake_file
          simp [hlen, hov, hmac, hp]
        | false =>
          unfold upload_datalake_file run_chunks_and_flush
          simp [hlen, hov, hmac, hp, hch, is_flush, is_chunk_upload]
    | true =>
      cases hcr : env.createResult with
      | error e2 =>
        unfold upload_datalake_file
        simp [hlen, hov, hcr, is_flush, is_chunk_upload]
      | ok resp =>
        cases hmac : args.modified_access_conditions with
        | none =>
          unfold upload_datalake_file
          simp [hlen, hov, hcr, hmac, is_flush, is_chunk_upload]
        | some s =>
          unfold upload_datalake_file run_chunks_and_flush
          simp [hlen, hov, hcr, hmac, hch, is_flush, is_chunk_upload]

def c7Args : UploadArgs :=
  { baseArgs with
    overwrite := true,
    length := some 400 }

def c7Env : Env :=
  { createResult := Except.error { message := "service unavailable" },
    chunkOutcome := Except.ok (),
    flushResult := Except.ok [] }

theorem no_flush_on_failure_witness :
    (∀ c ∈ (upload_datalake_file c7Args c7Env).1, is_flush c = false) ∧
    (upload_datalake_file c7Args c7Env).2 =
      Except.error (process_storage_error { message := "service unavailable" }) :=
  (no_flush_on_failure c7Args c7Env (by decide)).1
    { message := "service unavailable" } rfl rfl

end DatalakeUpload
